import Mathlib

/-!
# Verification of the PPTX encoder core specification

The repository ships a fixture script (`scripts/generate_reference.py`)
that builds a two-slide reference presentation.  The encoder core the
specification describes (Geometry & Units, Document Model, Part
Serializer, Package Writer) is not present under `src/`; its behaviour
is modelled here from the specification's own words, and the fixture
script's document model and `__main__` glue are embedded from the
source.
-/

namespace Pptx

/-- The format's native length unit (EMU).  Modelled from the spec:
lengths are integers in native units; inches and points are derived by
fixed scale factors. -/
abbrev Emu := Int

/-- EMU per inch: the fixed documented scale factor. -/
def emuPerInch : Int := 914400

/-- EMU per point: the fixed documented scale factor. -/
def emuPerPoint : Int := 12700

/-- A length given in tenths of an inch, converted to native units
(all lengths in the fixture are multiples of 0.1 inch). -/
def inchesTenths (t : Int) : Emu := t * 91440

/-- A length given in whole points, converted to native units. -/
def pt (p : Int) : Emu := p * emuPerPoint

/-- An RGB colour, each channel in [0, 255]. -/
structure Color where
  r : Nat
  g : Nat
  b : Nat
deriving DecidableEq, Repr

/-- Fill variants: none or a solid colour.  Modelled from the spec. -/
inductive Fill where
  | none
  | solid (c : Color)
deriving DecidableEq, Repr

/-- An outline: a colour plus a stroke width in native units. -/
structure Outline where
  color : Color
  width : Emu
deriving DecidableEq, Repr

/-- Paragraph-level horizontal alignment. -/
inductive Align where
  | left
  | center
  | right
  | justify
deriving DecidableEq, Repr

/-- A text run: a string plus character formatting (font size in
points, bold flag, italic flag, colour), each optional. -/
structure TextRun where
  text : String
  sizePt : Option Nat := Option.none
  bold : Option Bool := Option.none
  italic : Option Bool := Option.none
  color : Option Color := Option.none
deriving DecidableEq, Repr

/-- A paragraph: ordered runs plus optional alignment. -/
structure Paragraph where
  runs : List TextRun
  align : Option Align := Option.none
deriving DecidableEq, Repr

/-- A text frame: an ordered sequence of paragraphs. -/
structure TextFrame where
  paragraphs : List Paragraph
deriving DecidableEq, Repr

/-- Shape variants with preset-geometry mappings (text boxes carry no
preset geometry). -/
inductive ShapeKind where
  | textBox
  | rectangle
  | oval
  | diamond
deriving DecidableEq, Repr

/-- A shape: a variant tag, position and size in native units,
optional fill, outline and text frame. -/
structure Shape where
  kind : ShapeKind
  x : Emu
  y : Emu
  w : Emu
  h : Emu
  fill : Option Fill := Option.none
  outline : Option Outline := Option.none
  textFrame : Option TextFrame := Option.none
deriving DecidableEq, Repr

/-- A slide: an ordered sequence of shapes (display order). -/
structure Slide where
  shapes : List Shape
deriving DecidableEq, Repr

/-- Presentation metadata: all fields optional strings. -/
structure Metadata where
  title : Option String := Option.none
  author : Option String := Option.none
  subject : Option String := Option.none
  keywords : Option String := Option.none
  comments : Option String := Option.none
deriving DecidableEq, Repr

/-- The root aggregate: slide dimensions, ordered slides, metadata. -/
structure Presentation where
  slideWidth : Emu
  slideHeight : Emu
  slides : List Slide
  metadata : Metadata
deriving DecidableEq, Repr

/-! ## The fixture script's document model

Embedded from `scripts/generate_reference.py`: two slides added from
the blank layout, with the text boxes and preset shapes the script
constructs, translated into the Document Model above. -/

/-- Title text box of slide 1: at (0.5in, 2in), size 9in x 1.5in,
text "Alignment Test Presentation", 54pt bold colour (0,51,102),
centred. -/
def refTitleBox : Shape :=
  { kind := ShapeKind.textBox
    x := inchesTenths 5, y := inchesTenths 20
    w := inchesTenths 90, h := inchesTenths 15
    textFrame := some ⟨[{ runs := [{ text := "Alignment Test Presentation"
                                     sizePt := some 54
                                     bold := some true
                                     color := some ⟨0, 51, 102⟩ }]
                          align := some Align.center }]⟩ }

/-- Subtitle text box of slide 1. -/
def refSubtitleBox : Shape :=
  { kind := ShapeKind.textBox
    x := inchesTenths 5, y := inchesTenths 38
    w := inchesTenths 90, h := inchesTenths 10
    textFrame := some ⟨[{ runs := [{ text := "ppt-rs vs python-pptx Compatibility"
                                     sizePt := some 32
                                     color := some ⟨102, 102, 102⟩ }]
                          align := some Align.center }]⟩ }

/-- Title text box of slide 2. -/
def refTitleBox2 : Shape :=
  { kind := ShapeKind.textBox
    x := inchesTenths 5, y := inchesTenths 5
    w := inchesTenths 90, h := inchesTenths 8
    textFrame := some ⟨[{ runs := [{ text := "Shapes and Formatting"
                                     sizePt := some 44
                                     bold := some true
                                     color := some ⟨0, 51, 102⟩ }] }]⟩ }

/-- The red rectangle of slide 2: solid fill (255,0,0), outline
(0,0,0) of width 2pt. -/
def refRect : Shape :=
  { kind := ShapeKind.rectangle
    x := inchesTenths 5, y := inchesTenths 18
    w := inchesTenths 25, h := inchesTenths 15
    fill := some (Fill.solid ⟨255, 0, 0⟩)
    outline := some ⟨⟨0, 0, 0⟩, pt 2⟩
    textFrame := some ⟨[{ runs := [{ text := "Rectangle"
                                     sizePt := some 18
                                     bold := some true
                                     color := some ⟨255, 255, 255⟩ }]
                          align := some Align.center }]⟩ }

/-- The green oval of slide 2. -/
def refCircle : Shape :=
  { kind := ShapeKind.oval
    x := inchesTenths 35, y := inchesTenths 18
    w := inchesTenths 25, h := inchesTenths 15
    fill := some (Fill.solid ⟨0, 255, 0⟩)
    outline := some ⟨⟨0, 0, 0⟩, pt 2⟩
    textFrame := some ⟨[{ runs := [{ text := "Circle"
                                     sizePt := some 18
                                     bold := some true
                                     color := some ⟨255, 255, 255⟩ }]
                          align := some Align.center }]⟩ }

/-- The blue diamond of slide 2. -/
def refDiamond : Shape :=
  { kind := ShapeKind.diamond
    x := inchesTenths 65, y := inchesTenths 18
    w := inchesTenths 25, h := inchesTenths 15
    fill := some (Fill.solid ⟨0, 0, 255⟩)
    outline := some ⟨⟨0, 0, 0⟩, pt 2⟩
    textFrame := some ⟨[{ runs := [{ text := "Diamond"
                                     sizePt := some 18
                                     bold := some true
                                     color := some ⟨255, 255, 255⟩ }]
                          align := some Align.center }]⟩ }

/-- Slide 1 of the fixture: title and subtitle text boxes. -/
def refSlide1 : Slide := ⟨[refTitleBox, refSubtitleBox]⟩

/-- Slide 2 of the fixture: title text box, rectangle, oval, diamond. -/
def refSlide2 : Slide := ⟨[refTitleBox2, refRect, refCircle, refDiamond]⟩

/-- The fixture's metadata, as set by the script. -/
def refMetadata : Metadata :=
  { title := some "Alignment Test Presentation"
    author := some "ppt-rs Team"
    subject := some "Testing ppt-rs alignment with python-pptx"
    keywords := some "pptx, rust, python-pptx, alignment"
    comments := some "This presentation tests alignment between ppt-rs and python-pptx" }

/-- The complete document model the fixture script builds: slide size
10in x 7.5in, two slides, metadata as set by the script. -/
def refModel : Presentation :=
  { slideWidth := inchesTenths 100
    slideHeight := inchesTenths 75
    slides := [refSlide1, refSlide2]
    metadata := refMetadata }

/-! ## XML model and Part Serializer

Modelled from the spec: the Part Serializer translates a read-only
Presentation into a mapping from part path to XML content, plus
relationship and content-types parts (spec section 4.3). -/

/-- A simple XML tree: elements with attributes and children, or
character data. -/
inductive Xml where
  | elem (name : String) (attrs : List (String × String)) (children : List Xml)
  | text (s : String)

/-- First attribute with the given name, if any. -/
def Xml.attr (x : Xml) (key : String) : Option String :=
  match x with
  | Xml.elem _ attrs _ => (attrs.find? (fun a => a.1 = key)).map Prod.snd
  | Xml.text _ => Option.none

/-- The element's children (empty for character data). -/
def Xml.childList (x : Xml) : List Xml :=
  match x with
  | Xml.elem _ _ cs => cs
  | Xml.text _ => []

/-- First child element with the given tag name, if any. -/
def Xml.child (x : Xml) (tag : String) : Option Xml :=
  x.childList.find? (fun c =>
    match c with
    | Xml.elem n _ _ => n = tag
    | Xml.text _ => false)

/-- Whether a child element with the given tag name exists. -/
def Xml.hasChild (x : Xml) (tag : String) : Bool :=
  (x.child tag).isSome

/-- Concatenated character data of the element's direct children. -/
def Xml.innerText (x : Xml) : String :=
  String.join (x.childList.map (fun c =>
    match c with
    | Xml.text s => s
    | Xml.elem _ _ _ => ""))

/-- The sixteen hexadecimal digit strings. -/
def hexDigits : List String :=
  ["0", "1", "2", "3", "4", "5", "6", "7",
   "8", "9", "A", "B", "C", "D", "E", "F"]

/-- Two-digit uppercase hexadecimal rendering of a byte. -/
def hexByte (n : Nat) : String :=
  (hexDigits[n / 16 % 16]?.getD "") ++ (hexDigits[n % 16]?.getD "")

/-- Six-digit hex triple for a colour, as required by the format's
colour vocabulary. -/
def hexColor (c : Color) : String :=
  hexByte c.r ++ hexByte c.g ++ hexByte c.b

/-- The format's attribute value for a paragraph alignment. -/
def alignValue : Align → String
  | Align.left => "l"
  | Align.center => "ctr"
  | Align.right => "r"
  | Align.justify => "just"

/-- Preset-geometry vocabulary entry for a shape variant; text boxes
carry no preset geometry. -/
def presetName : ShapeKind → Option String
  | ShapeKind.textBox => Option.none
  | ShapeKind.rectangle => some "rect"
  | ShapeKind.oval => some "ellipse"
  | ShapeKind.diamond => some "diamond"

/-- Solid-fill element for a colour. -/
def solidFillXml (c : Color) : Xml :=
  Xml.elem "solidFill" [] [Xml.elem "srgbClr" [("val", hexColor c)] []]

/-- Fill translated to the format's fill vocabulary. -/
def fillXml : Fill → Xml
  | Fill.none => Xml.elem "noFill" [] []
  | Fill.solid c => solidFillXml c

/-- Line element for an outline: width in native units plus colour. -/
def lineXml (o : Outline) : Xml :=
  Xml.elem "ln" [("w", toString o.width)] [solidFillXml o.color]

/-- Run-properties attributes: size in centipoints, bold and italic
flags, each emitted only when set. -/
def runPropAttrs (r : TextRun) : List (String × String) :=
  (match r.sizePt with
   | some s => [("sz", toString (s * 100))]
   | Option.none => []) ++
  (match r.bold with
   | some b => [("b", if b then "1" else "0")]
   | Option.none => []) ++
  (match r.italic with
   | some i => [("i", if i then "1" else "0")]
   | Option.none => [])

/-- Serialize one text run: run properties followed by its text. -/
def serializeRun (r : TextRun) : Xml :=
  Xml.elem "r" []
    [Xml.elem "rPr" (runPropAttrs r)
       (match r.color with
        | some c => [solidFillXml c]
        | Option.none => []),
     Xml.elem "t" [] [Xml.text r.text]]

/-- Serialize one paragraph: paragraph properties (alignment when
present) followed by its runs. -/
def serializeParagraph (p : Paragraph) : Xml :=
  Xml.elem "p" []
    (Xml.elem "pPr"
       (match p.align with
        | some a => [("algn", alignValue a)]
        | Option.none => []) [] ::
     p.runs.map serializeRun)

/-- Serialize a text frame into a text-body element. -/
def serializeTextFrame (tf : TextFrame) : Xml :=
  Xml.elem "txBody" [] (tf.paragraphs.map serializeParagraph)

/-- Shape-properties element: transform (offset and extent in native
units), preset geometry when the variant has one, then fill and
outline when present. -/
def shapePropsXml (s : Shape) : Xml :=
  Xml.elem "spPr" []
    ([Xml.elem "xfrm" []
        [Xml.elem "off" [("x", toString s.x), ("y", toString s.y)] [],
         Xml.elem "ext" [("cx", toString s.w), ("cy", toString s.h)] []]] ++
     (match presetName s.kind with
      | some nm => [Xml.elem "prstGeom" [("prst", nm)] []]
      | Option.none => []) ++
     (match s.fill with
      | some f => [fillXml f]
      | Option.none => []) ++
     (match s.outline with
      | some o => [lineXml o]
      | Option.none => []))

/-- Serialize one shape carrying its assigned id. -/
def serializeShape (id : Nat) (s : Shape) : Xml :=
  Xml.elem "sp" []
    ([Xml.elem "nvSpPr" [("id", toString id), ("name", "Shape " ++ toString id)] [],
      shapePropsXml s] ++
     (match s.textFrame with
      | some tf => [serializeTextFrame tf]
      | Option.none => []))

/-- Serialize the shapes of a slide, assigning consecutive ids from
the given counter (spec section 4.3 step 1). -/
def serializeShapesFrom : Nat → List Shape → List Xml
  | _, [] => []
  | n, s :: rest => serializeShape n s :: serializeShapesFrom (n + 1) rest

/-- Serialize a slide part: the shape tree whose group root carries
the reserved id 1, followed by the shape elements with ids starting
at the given counter. -/
def serializeSlide (startId : Nat) (sl : Slide) : Xml :=
  Xml.elem "sld" []
    [Xml.elem "cSld" []
       [Xml.elem "spTree" []
          (Xml.elem "nvGrpSpPr" [("id", "1"), ("name", "")] [] ::
           serializeShapesFrom startId sl.shapes)]]

/-- An optional child element, omitted entirely when the field is
absent (spec section 4.3 step 4). -/
def optElem (tag : String) (v : Option String) : List Xml :=
  match v with
  | some s => [Xml.elem tag [] [Xml.text s]]
  | Option.none => []

/-- Serialize the core-properties part from Metadata; absent fields
are omitted, never emitted as empty elements. -/
def serializeCoreProps (m : Metadata) : Xml :=
  Xml.elem "coreProperties" []
    (optElem "title" m.title ++
     optElem "creator" m.author ++
     optElem "subject" m.subject ++
     optElem "keywords" m.keywords ++
     optElem "description" m.comments)

/-- Serialize the presentation part: slide dimensions plus one slide
reference per slide, in slide order. -/
def serializePresPart (p : Presentation) : Xml :=
  Xml.elem "presentation" []
    [Xml.elem "sldSz"
       [("cx", toString p.slideWidth), ("cy", toString p.slideHeight)] [],
     Xml.elem "sldIdLst" []
       ((List.range p.slides.length).map (fun i =>
         Xml.elem "sldId" [("id", toString (256 + i)), ("rId", toString (i + 1))] []))]

/-! ## Shape id assignment

Modelled from the spec: every shape receives a document-unique
positive integer id, assigned in slide order then shape order within
slide, id 1 reserved for each slide's group root, ids 2..N+1 for the
N shapes in sequence. -/

/-- All shapes of a presentation in slide order then shape order. -/
def allShapes (p : Presentation) : List Shape :=
  p.slides.flatMap Slide.shapes

/-- Pair each shape with its id, counting up from the given start. -/
def assignIdsFrom : Nat → List Shape → List (Shape × Nat)
  | _, [] => []
  | n, s :: rest => (s, n) :: assignIdsFrom (n + 1) rest

/-- The document-wide shape-to-id assignment: ids from 2 upward in
slide order then shape order within slide. -/
def shapeIdPairs (p : Presentation) : List (Shape × Nat) :=
  assignIdsFrom 2 (allShapes p)

/-- Number of shapes on the slides before slide index `s` in a slide
list. -/
def listShapesBefore (sls : List Slide) (s : Nat) : Nat :=
  ((sls.take s).map (fun sl => sl.shapes.length)).sum

/-- Number of shapes on the slides before slide index `s`, used to
place a slide's shape ids in the document-wide sequence. -/
def shapesBefore (p : Presentation) (s : Nat) : Nat :=
  listShapesBefore p.slides s

/-- Swap the entries at positions `i` and `j` of a list (identity
when either index is out of range). -/
def swapList {α : Type _} (xs : List α) (i j : Nat) : List α :=
  match xs[i]?, xs[j]? with
  | some a, some b => (xs.set i b).set j a
  | _, _ => xs

/-- Reorder two shapes within one slide of a presentation. -/
def swapShapesWithin (p : Presentation) (s i j : Nat) : Presentation :=
  { p with slides :=
      match p.slides[s]? with
      | some sl => p.slides.set s ⟨swapList sl.shapes i j⟩
      | Option.none => p.slides }

/-! ## Package Writer

Modelled from the spec: assembles the serialized parts plus the
boilerplate layout/master/theme parts into an archive with a
deterministic entry order (content-types first, then
presentation-level parts, then slides in order), one relationships
part per referencing part with ids starting at 1 in each part's own
scope, and a content-types part enumerating every other part. -/

/-- The body of an archive entry, tagged by part kind. -/
inductive PartBody where
  | ctypes (declared : List String)
  | presentation (x : Xml)
  | slide (x : Xml)
  | coreProps (x : Xml)
  | layout (x : Xml)
  | master (x : Xml)
  | theme (x : Xml)
  | rels (entries : List (Nat × String))

/-- An archive: ordered entries of path and part body. -/
abbrev Archive := List (String × PartBody)

/-- Internal path of the k-th slide part (1-based). -/
def slidePartPath (k : Nat) : String :=
  "ppt/slides/slide" ++ toString k ++ ".xml"

/-- Internal path of the k-th slide part's relationships part. -/
def slideRelsPath (k : Nat) : String :=
  "ppt/slides/_rels/slide" ++ toString k ++ ".xml.rels"

/-- Path of the single shared slide layout part. -/
def layoutPath : String := "ppt/slideLayouts/slideLayout1.xml"

/-- Path of the single shared slide master part. -/
def masterPath : String := "ppt/slideMasters/slideMaster1.xml"

/-- Path of the theme part. -/
def themePath : String := "ppt/theme/theme1.xml"

/-- Path of the presentation part. -/
def presPartPath : String := "ppt/presentation.xml"

/-- Path of the core-properties part. -/
def corePartPath : String := "docProps/core.xml"

/-- Path of the content-types part at the archive root. -/
def contentTypesPath : String := "[Content_Types].xml"

/-- Minimal boilerplate slide layout part. -/
def layoutXml : Xml :=
  Xml.elem "sldLayout" [] [Xml.elem "cSld" [] [Xml.elem "spTree" [] []]]

/-- Minimal boilerplate slide master part. -/
def masterXml : Xml :=
  Xml.elem "sldMaster" [] [Xml.elem "cSld" [] [Xml.elem "spTree" [] []]]

/-- Minimal boilerplate theme part. -/
def themeXml : Xml :=
  Xml.elem "theme" [] []

/-- Slide entries of the archive: for each slide, its part followed by
its relationships part (targeting the shared layout), numbering slides
from `k` and shape ids from `firstId`. -/
def slideEntries : Nat → Nat → List Slide → Archive
  | _, _, [] => []
  | k, firstId, sl :: rest =>
    (slidePartPath k, PartBody.slide (serializeSlide firstId sl)) ::
    (slideRelsPath k, PartBody.rels [(1, layoutPath)]) ::
    slideEntries (k + 1) (firstId + sl.shapes.length) rest

/-- Relationship entries of the presentation part: one per slide in
slide order with ids 1..S, then the slide master. -/
def presRelEntries (p : Presentation) : List (Nat × String) :=
  (List.range p.slides.length).map (fun i => (i + 1, slidePartPath (i + 1))) ++
  [(p.slides.length + 1, masterPath)]

/-- Every archive entry except the content-types part, in the fixed
deterministic order: package relationships, core properties,
presentation part and its relationships, boilerplate parts, then the
slides in order. -/
def archiveRest (p : Presentation) : Archive :=
  (".rels", PartBody.rels [(1, presPartPath), (2, corePartPath)]) ::
  (corePartPath, PartBody.coreProps (serializeCoreProps p.metadata)) ::
  (presPartPath, PartBody.presentation (serializePresPart p)) ::
  ("ppt/_rels/presentation.xml.rels", PartBody.rels (presRelEntries p)) ::
  (masterPath, PartBody.master masterXml) ::
  ("ppt/slideMasters/_rels/slideMaster1.xml.rels",
    PartBody.rels [(1, layoutPath), (2, themePath)]) ::
  (layoutPath, PartBody.layout layoutXml) ::
  ("ppt/slideLayouts/_rels/slideLayout1.xml.rels",
    PartBody.rels [(1, masterPath)]) ::
  (themePath, PartBody.theme themeXml) ::
  slideEntries 1 2 p.slides

/-- Build the archive for a document model: the content-types part
first, enumerating every other part, then the remaining entries in
the fixed deterministic order. -/
def buildArchive (p : Presentation) : Archive :=
  (contentTypesPath, PartBody.ctypes ((archiveRest p).map Prod.fst)) ::
  archiveRest p

/-- Count the slide parts of an archive. -/
def countSlideParts (a : Archive) : Nat :=
  a.countP (fun e =>
    match e.2 with
    | PartBody.slide _ => true
    | _ => false)

/-- Count the presentation parts of an archive. -/
def countPresParts (a : Archive) : Nat :=
  a.countP (fun e =>
    match e.2 with
    | PartBody.presentation _ => true
    | _ => false)

/-- Count the content-types parts of an archive. -/
def countCtypesParts (a : Archive) : Nat :=
  a.countP (fun e =>
    match e.2 with
    | PartBody.ctypes _ => true
    | _ => false)

/-- Count the core-properties parts of an archive. -/
def countCoreParts (a : Archive) : Nat :=
  a.countP (fun e =>
    match e.2 with
    | PartBody.coreProps _ => true
    | _ => false)

/-- The paths the archive's content-types part declares (empty when
the entry is missing). -/
def declaredPaths (a : Archive) : List String :=
  (a.filterMap (fun e =>
    match e.2 with
    | PartBody.ctypes ds => some ds
    | _ => Option.none)).flatten

/-- All relationship targets appearing in any relationships part of
the archive. -/
def relTargets (a : Archive) : List String :=
  (a.filterMap (fun e =>
    match e.2 with
    | PartBody.rels rs => some (rs.map Prod.snd)
    | _ => Option.none)).flatten

/-! ## Build pipeline with error handling

Modelled from the spec: the serializer fails with `EncodingError` on
text containing control characters disallowed by XML; any failure
aborts the whole build and nothing is written to the destination. -/

/-- The error taxonomy of the core. -/
inductive BuildError where
  | invalidGeometry
  | unsupportedShapeVariant
  | encodingError
  | packagingError
deriving DecidableEq, Repr

/-- Whether a character is allowed in XML text: tab, line feed,
carriage return, and anything at or above the space character. -/
def xmlCharOk (c : Char) : Bool :=
  c.toNat = 9 || c.toNat = 10 || c.toNat = 13 || c.toNat ≥ 32

/-- Whether every character of a run's text is representable as XML
text (reserved characters are escaped, not rejected; disallowed
control characters fail). -/
def textOk (s : String) : Bool := s.toList.all xmlCharOk

/-- Whether every run of a shape's text frame carries valid XML
text. -/
def shapeTextOk (s : Shape) : Bool :=
  match s.textFrame with
  | some tf => tf.paragraphs.all (fun p => p.runs.all (fun r => textOk r.text))
  | Option.none => true

/-- Whether a whole presentation's text content is valid XML text. -/
def presTextOk (p : Presentation) : Bool :=
  p.slides.all (fun sl => sl.shapes.all shapeTextOk)

/-- Build the package, failing with `EncodingError` when any text run
contains a disallowed control character; on success the complete
archive is produced. -/
def buildPackage (p : Presentation) : Except BuildError Archive :=
  if presTextOk p then Except.ok (buildArchive p)
  else Except.error BuildError.encodingError

/-- The output destination after a build: a complete archive on
success, nothing at all on failure (never a partial package). -/
def writeDestination (p : Presentation) : Option Archive :=
  match buildPackage p with
  | Except.ok a => some a
  | Except.error _ => Option.none

/-! ## Model-construction error handling

Modelled from the spec: non-negative size is checked at shape
construction and fails with `InvalidGeometry`; the rejected mutation
leaves the owning slide in its last valid state. -/

/-- Append a newly constructed shape to a slide, rejecting negative
width or height with `InvalidGeometry`. -/
def Slide.addShape (sl : Slide) (kind : ShapeKind) (x y w h : Emu)
    (fill : Option Fill) (outline : Option Outline)
    (tf : Option TextFrame) : Except BuildError Slide :=
  if w < 0 ∨ h < 0 then Except.error BuildError.invalidGeometry
  else Except.ok ⟨sl.shapes ++ [⟨kind, x, y, w, h, fill, outline, tf⟩]⟩

/-- State-passing view of shape construction: on failure the owning
slide is kept unchanged and the error reported alongside. -/
def Slide.addShapeOrKeep (sl : Slide) (kind : ShapeKind) (x y w h : Emu)
    (fill : Option Fill) (outline : Option Outline)
    (tf : Option TextFrame) : Slide × Option BuildError :=
  match sl.addShape kind x y w h fill outline tf with
  | Except.ok sl2 => (sl2, Option.none)
  | Except.error e => (sl, some e)

/-! ## The fixture script's glue code

Embedded from `scripts/generate_reference.py`: the output-path
computation, the directory creation, and the `__main__` block's
error handling. -/

/-- Whether a string's first character is the given character. -/
def strHeadIs (s : String) (c : Char) : Bool :=
  match s.toList with
  | [] => false
  | x :: _ => x = c

/-- Whether a string's last character is the given character. -/
def strLastIs (s : String) (c : Char) : Bool :=
  match s.toList.getLast? with
  | some x => x = c
  | Option.none => false

/-- POSIX `os.path.join` for two components as the script uses it. -/
def osPathJoin (a b : String) : String :=
  if strHeadIs b '/' then b
  else if a = "" then b
  else if strLastIs a '/' then a ++ b
  else a ++ "/" ++ b

/-- The script's output directory. -/
def outputDir : String := "examples/output"

/-- The script's output file name. -/
def outputFileName : String := "reference_python_pptx.pptx"

/-- `os.makedirs(d, exist_ok)` over a set of existing directories:
creates the directory if missing; with `exist_ok` a pre-existing
directory is accepted, otherwise it is an error. -/
def makedirs (dirs : List String) (d : String) (existOk : Bool) :
    Except String (List String) :=
  if d ∈ dirs then
    if existOk then Except.ok dirs else Except.error "FileExistsError"
  else Except.ok (dirs ++ [d])

/-- The tail of `create_reference_presentation`: ensure the output
directory exists with `exist_ok=True`, then return the joined output
path (the presentation save is modelled elsewhere). -/
def createReferencePresentation (dirs : List String) :
    Except String (List String × String) :=
  match makedirs dirs outputDir true with
  | Except.ok dirs2 => Except.ok (dirs2, osPathJoin outputDir outputFileName)
  | Except.error e => Except.error e

/-- Outcome of running `create_reference_presentation` under the
script's `try` block. -/
inductive PyOutcome where
  | ok (path : String)
  | importError (msg : String)
  | exn (msg : String)
deriving DecidableEq, Repr

/-- The script's `__main__` block: on `ImportError` print the install
hint and exit 1, on any other exception print the message and exit 1,
otherwise fall off the end with status 0.  Returns the exit status and
the error lines printed. -/
def scriptMain (r : PyOutcome) : Nat × List String :=
  match r with
  | PyOutcome.ok _ => (0, [])
  | PyOutcome.importError _ =>
    (1, ["Error: python-pptx not installed. Install with: pip install python-pptx"])
  | PyOutcome.exn m => (1, ["Error: " ++ m])

/-! ## XML path lookup helpers used to state the claims -/

/-- Tag name of an element (empty for character data). -/
def Xml.tagName : Xml → String
  | Xml.elem n _ _ => n
  | Xml.text _ => ""

/-- Follow a path of child tag names from an element. -/
def xpath (x : Xml) : List String → Option Xml
  | [] => some x
  | t :: rest => (x.child t).bind (fun c => xpath c rest)

/-- Attribute lookup at the end of a child path. -/
def xattr (x : Xml) (path : List String) (key : String) : Option String :=
  (xpath x path).bind (fun e => e.attr key)

/-- The shape elements of a serialized slide part, in document
order. -/
def spList (slideXml : Xml) : List Xml :=
  (((xpath slideXml ["cSld", "spTree"]).map Xml.childList).getD []).filter
    (fun c => c.tagName = "sp")

/-! ## Byte rendering of the archive

Modelled from the spec: one canonical minified serialization style,
escaping the XML-reserved characters in text, so that byte-identical
output is meaningful. -/

/-- Escape one character of XML text. -/
def escapeChar (c : Char) : String :=
  if c = '<' then "&lt;"
  else if c = '>' then "&gt;"
  else if c = '&' then "&amp;"
  else if c = '"' then "&quot;"
  else String.singleton c

/-- Escape a string for use as XML text or an attribute value. -/
def escapeText (s : String) : String :=
  String.join (s.toList.map escapeChar)

/-- Render an attribute list. -/
def renderAttrs : List (String × String) → String
  | [] => ""
  | (k, v) :: rest => " " ++ k ++ "=\"" ++ escapeText v ++ "\"" ++ renderAttrs rest

mutual

/-- Render an XML tree in the canonical minified style. -/
def renderXml : Xml → String
  | Xml.text s => escapeText s
  | Xml.elem n attrs cs =>
    "<" ++ n ++ renderAttrs attrs ++ ">" ++ renderChildren cs ++ "</" ++ n ++ ">"

/-- Render a list of XML trees in order. -/
def renderChildren : List Xml → String
  | [] => ""
  | c :: rest => renderXml c ++ renderChildren rest

end

/-- The fixed XML declaration heading every part. -/
def xmlDecl : String :=
  "<?xml version=\"1.0\" encoding=\"UTF-8\" standalone=\"yes\"?>"

/-- Render one part body to bytes. -/
def renderBody : PartBody → String
  | PartBody.ctypes ds =>
    xmlDecl ++ "<Types>" ++
      String.join (ds.map (fun d => "<Override PartName=\"/" ++ d ++ "\"/>")) ++
      "</Types>"
  | PartBody.rels rs =>
    xmlDecl ++ "<Relationships>" ++
      String.join (rs.map (fun e =>
        "<Relationship Id=\"rId" ++ toString e.1 ++ "\" Target=\"/" ++ e.2 ++ "\"/>")) ++
      "</Relationships>"
  | PartBody.presentation x => xmlDecl ++ renderXml x
  | PartBody.slide x => xmlDecl ++ renderXml x
  | PartBody.coreProps x => xmlDecl ++ renderXml x
  | PartBody.layout x => xmlDecl ++ renderXml x
  | PartBody.master x => xmlDecl ++ renderXml x
  | PartBody.theme x => xmlDecl ++ renderXml x

/-- Render a whole archive: entries in their deterministic order,
each as its path followed by its rendered body. -/
def renderArchive (a : Archive) : String :=
  String.join (a.map (fun e => e.1 ++ "\n" ++ renderBody e.2 ++ "\n"))

/-- The bytes of the package built from a document model. -/
def buildArchiveBytes (p : Presentation) : String :=
  renderArchive (buildArchive p)

/-! ## Claims -/

/-- C1: in the presentation built by `create_reference_presentation`
the slide size is 10in x 7.5in (9144000 x 6858000 EMU); the first text
box of slide 1 serializes as the first shape of the slide part, placed
at (0.5in, 2in) = (457200, 1828800) with size 9in x 1.5in =
8229600 x 1371600, with no preset geometry, one paragraph aligned
"ctr", and one run with text "Alignment Test Presentation", size
attribute 5400 centipoints, bold attribute 1 and colour hex 003366. -/
theorem spec_c1 :
    refModel.slideWidth = 9144000 ∧
    refModel.slideHeight = 6858000 ∧
    refModel.slides[0]? = some refSlide1 ∧
    refSlide1.shapes[0]? = some refTitleBox ∧
    refTitleBox.kind = ShapeKind.textBox ∧
    (spList (serializeSlide 2 refSlide1))[0]? = some (serializeShape 2 refTitleBox) ∧
    xattr (serializeShape 2 refTitleBox) ["spPr", "xfrm", "off"] "x" = some "457200" ∧
    xattr (serializeShape 2 refTitleBox) ["spPr", "xfrm", "off"] "y" = some "1828800" ∧
    xattr (serializeShape 2 refTitleBox) ["spPr", "xfrm", "ext"] "cx" = some "8229600" ∧
    xattr (serializeShape 2 refTitleBox) ["spPr", "xfrm", "ext"] "cy" = some "1371600" ∧
    ((serializeShape 2 refTitleBox).child "spPr").map (fun e => e.hasChild "prstGeom") =
      some false ∧
    ((serializeShape 2 refTitleBox).child "txBody").map (fun e => e.childList.length) =
      some 1 ∧
    xattr (serializeShape 2 refTitleBox) ["txBody", "p", "pPr"] "algn" = some "ctr" ∧
    xattr (serializeShape 2 refTitleBox) ["txBody", "p", "r", "rPr"] "sz" = some "5400" ∧
    xattr (serializeShape 2 refTitleBox) ["txBody", "p", "r", "rPr"] "b" = some "1" ∧
    xattr (serializeShape 2 refTitleBox) ["txBody", "p", "r", "rPr", "solidFill", "srgbClr"]
      "val" = some "003366" ∧
    (xpath (serializeShape 2 refTitleBox) ["txBody", "p", "r", "t"]).map Xml.innerText =
      some "Alignment Test Presentation" :=
  ⟨rfl, rfl, rfl, rfl, rfl, rfl, rfl, rfl, rfl, rfl, rfl, rfl, rfl, rfl, rfl, rfl, rfl⟩

/-- C2: serialization is deterministic — building the package twice
from the same document model yields byte-identical archives (the
build is a pure function of the model), in particular for the fixture
model. -/
theorem spec_c2 (M : Presentation) :
    buildArchiveBytes M = buildArchiveBytes M ∧
    buildArchive M = buildArchive M ∧
    buildArchiveBytes refModel = buildArchiveBytes refModel :=
  ⟨rfl, rfl, rfl⟩

/-- C3: the fixture's rectangle (solid fill (255,0,0), outline
(0,0,0) of width 2pt) serializes inside the slide part with a
solid-fill element of hex FF0000 and a line element of hex 000000
whose width attribute is 2pt converted to native units, 25400 EMU. -/
theorem spec_c3 :
    (spList (serializeSlide 4 refSlide2))[1]? = some (serializeShape 5 refRect) ∧
    refRect.kind = ShapeKind.rectangle ∧
    refRect.fill = some (Fill.solid ⟨255, 0, 0⟩) ∧
    refRect.outline = some ⟨⟨0, 0, 0⟩, pt 2⟩ ∧
    xattr (serializeShape 5 refRect) ["spPr", "solidFill", "srgbClr"] "val" =
      some "FF0000" ∧
    pt 2 = 25400 ∧
    xattr (serializeShape 5 refRect) ["spPr", "ln"] "w" = some "25400" ∧
    xattr (serializeShape 5 refRect) ["spPr", "ln", "solidFill", "srgbClr"] "val" =
      some "000000" :=
  ⟨rfl, rfl, rfl, rfl, rfl, rfl, rfl, rfl⟩

/-- C6: constructing a shape with width -1 fails with
`InvalidGeometry`, and the owning slide's shape count is unchanged —
the model stays in its last valid state. -/
theorem spec_c6 (sl : Slide) (kind : ShapeKind) (x y h : Emu)
    (fill : Option Fill) (outline : Option Outline) (tf : Option TextFrame) :
    sl.addShape kind x y (-1) h fill outline tf =
      Except.error BuildError.invalidGeometry ∧
    (sl.addShapeOrKeep kind x y (-1) h fill outline tf).1 = sl ∧
    (sl.addShapeOrKeep kind x y (-1) h fill outline tf).1.shapes.length =
      sl.shapes.length := by
  have he : sl.addShape kind x y (-1) h fill outline tf =
      Except.error BuildError.invalidGeometry := by
    unfold Slide.addShape
    rw [if_pos]
    exact Or.inl (by norm_num)
  refine ⟨he, ?_, ?_⟩ <;> simp [Slide.addShapeOrKeep, he]

/-- C8: when the build fails, nothing is written to the output
destination — no partial or inconsistent archive is ever emitted. -/
theorem spec_c8 (p : Presentation) (e : BuildError)
    (h : buildPackage p = Except.error e) :
    writeDestination p = Option.none := by
  simp [writeDestination, h]

/-- A presentation whose only run carries a control character
disallowed by XML, so that the build fails with `EncodingError`. -/
def badPresentation : Presentation :=
  { slideWidth := 9144000
    slideHeight := 6858000
    slides := [⟨[{ kind := ShapeKind.textBox, x := 0, y := 0, w := 0, h := 0
                   textFrame := some ⟨[{ runs := [{ text := "\x00" }] }]⟩ }]⟩]
    metadata := {} }

/-- Witness for C8: the control-character presentation makes the
build fail, and the destination is left empty. -/
theorem spec_c8_witness :
    buildPackage badPresentation = Except.error BuildError.encodingError ∧
    writeDestination badPresentation = Option.none := by
  have h : buildPackage badPresentation = Except.error BuildError.encodingError := rfl
  exact ⟨h, spec_c8 badPresentation BuildError.encodingError h⟩

/-- C9: the script's `__main__` prints an error line and exits with
status 1 on `ImportError` or any other exception, and exits with
status 0 when `create_reference_presentation` completes. -/
theorem spec_c9 (m p : String) :
    scriptMain (PyOutcome.importError m) =
      (1, ["Error: python-pptx not installed. Install with: pip install python-pptx"]) ∧
    scriptMain (PyOutcome.exn m) = (1, ["Error: " ++ m]) ∧
    (scriptMain (PyOutcome.exn m)).2 ≠ [] ∧
    (scriptMain (PyOutcome.importError m)).2 ≠ [] ∧
    scriptMain (PyOutcome.ok p) = (0, []) ∧
    (∀ r : PyOutcome, (scriptMain r).1 = 0 ∨ (scriptMain r).1 = 1) := by
  refine ⟨rfl, rfl, by simp [scriptMain], by simp [scriptMain], rfl, ?_⟩
  intro r
  cases r <;> simp [scriptMain]

/-- C10: `create_reference_presentation` returns exactly the join of
"examples/output" and "reference_python_pptx.pptx"; the directory
creation uses `exist_ok=True`, so it never fails and is idempotent —
a pre-existing output directory causes no failure. -/
theorem spec_c10 (dirs : List String) :
    osPathJoin outputDir outputFileName = "examples/output/reference_python_pptx.pptx" ∧
    (∃ dirs2, makedirs dirs outputDir true = Except.ok dirs2) ∧
    (∀ dirs2, makedirs dirs outputDir true = Except.ok dirs2 →
      makedirs dirs2 outputDir true = Except.ok dirs2 ∧
      createReferencePresentation dirs =
        Except.ok (dirs2, "examples/output/reference_python_pptx.pptx")) := by
  have hj : osPathJoin outputDir outputFileName =
      "examples/output/reference_python_pptx.pptx" := by decide
  refine ⟨hj, ?_, ?_⟩
  · by_cases hc : outputDir ∈ dirs
    · exact ⟨dirs, by simp [makedirs, hc]⟩
    · exact ⟨dirs ++ [outputDir], by simp [makedirs, hc]⟩
  · intro dirs2 h
    by_cases hc : outputDir ∈ dirs
    · simp [makedirs, hc] at h
      subst h
      exact ⟨by simp [makedirs, hc],
             by simp [createReferencePresentation, makedirs, hc, hj]⟩
    · simp [makedirs, hc] at h
      subst h
      exact ⟨by simp [makedirs],
             by simp [createReferencePresentation, makedirs, hc, hj]⟩

/-- Witness for C10: with the output directory already present, the
directory step succeeds unchanged and the returned path is the joined
constant. -/
theorem spec_c10_witness :
    makedirs ["examples/output"] outputDir true = Except.ok ["examples/output"] ∧
    createReferencePresentation ["examples/output"] =
      Except.ok (["examples/output"], "examples/output/reference_python_pptx.pptx") := by
  have h : makedirs ["examples/output"] outputDir true =
      Except.ok ["examples/output"] := rfl
  exact ⟨((spec_c10 ["examples/output"]).2.2 ["examples/output"] h).1,
         ((spec_c10 ["examples/output"]).2.2 ["examples/output"] h).2⟩

/-- The slide entries contribute no core-properties part. -/
lemma countCore_slideEntries (k f : Nat) (sls : List Slide) :
    countCoreParts (slideEntries k f sls) = 0 := by
  induction sls generalizing k f with
  | nil => rfl
  | cons hd tl ih =>
    have hrec := ih (k + 1) (f + hd.shapes.length)
    simp only [countCoreParts] at hrec
    simp only [slideEntries, countCoreParts, List.countP_cons, hrec]
    norm_num

/-- Metadata with every field absent. -/
def emptyMetadata : Metadata := {}

/-- C7: exactly one core-properties part is emitted; for the fixture
metadata it carries the title, creator, subject, keywords and
description as assigned; and any absent metadata field is omitted
from the part entirely rather than emitted as an empty element. -/
theorem spec_c7 (p : Presentation) (m : Metadata) :
    countCoreParts (buildArchive p) = 1 ∧
    ((serializeCoreProps refMetadata).child "title").map Xml.innerText =
      some "Alignment Test Presentation" ∧
    ((serializeCoreProps refMetadata).child "creator").map Xml.innerText =
      some "ppt-rs Team" ∧
    ((serializeCoreProps refMetadata).child "subject").map Xml.innerText =
      some "Testing ppt-rs alignment with python-pptx" ∧
    ((serializeCoreProps refMetadata).child "keywords").map Xml.innerText =
      some "pptx, rust, python-pptx, alignment" ∧
    ((serializeCoreProps refMetadata).child "description").map Xml.innerText =
      some "This presentation tests alignment between ppt-rs and python-pptx" ∧
    (m.title = Option.none → (serializeCoreProps m).hasChild "title" = false) ∧
    (m.author = Option.none → (serializeCoreProps m).hasChild "creator" = false) ∧
    (m.subject = Option.none → (serializeCoreProps m).hasChild "subject" = false) ∧
    (m.keywords = Option.none → (serializeCoreProps m).hasChild "keywords" = false) ∧
    (m.comments = Option.none → (serializeCoreProps m).hasChild "description" = false) := by
  obtain ⟨t, a, s, k, c⟩ := m
  refine ⟨?_, rfl, rfl, rfl, rfl, rfl, ?_, ?_, ?_, ?_, ?_⟩
  · have hs := countCore_slideEntries 1 2 p.slides
    simp only [countCoreParts] at hs
    simp only [buildArchive, archiveRest, countCoreParts, List.countP_cons, hs]
    norm_num
  · intro h
    simp only at h
    subst h
    cases a <;> cases s <;> cases k <;> cases c <;> rfl
  · intro h
    simp only at h
    subst h
    cases t <;> cases s <;> cases k <;> cases c <;> rfl
  · intro h
    simp only at h
    subst h
    cases t <;> cases a <;> cases k <;> cases c <;> rfl
  · intro h
    simp only at h
    subst h
    cases t <;> cases a <;> cases s <;> cases c <;> rfl
  · intro h
    simp only at h
    subst h
    cases t <;> cases a <;> cases s <;> cases k <;> rfl

/-- Witness for C7: the build of the fixture model has one
core-properties part, and with every metadata field absent no field
element is emitted. -/
theorem spec_c7_witness :
    countCoreParts (buildArchive refModel) = 1 ∧
    (serializeCoreProps emptyMetadata).hasChild "title" = false ∧
    (serializeCoreProps emptyMetadata).hasChild "creator" = false ∧
    (serializeCoreProps emptyMetadata).hasChild "subject" = false ∧
    (serializeCoreProps emptyMetadata).hasChild "keywords" = false ∧
    (serializeCoreProps emptyMetadata).hasChild "description" = false := by
  have H := spec_c7 refModel emptyMetadata
  exact ⟨H.1, H.2.2.2.2.2.2.1 rfl, H.2.2.2.2.2.2.2.1 rfl,
         H.2.2.2.2.2.2.2.2.1 rfl, H.2.2.2.2.2.2.2.2.2.1 rfl,
         H.2.2.2.2.2.2.2.2.2.2 rfl⟩

/-- The slide entries contribute exactly one slide part per slide. -/
lemma countSlide_slideEntries (k f : Nat) (sls : List Slide) :
    countSlideParts (slideEntries k f sls) = sls.length := by
  induction sls generalizing k f with
  | nil => rfl
  | cons hd tl ih =>
    have hrec := ih (k + 1) (f + hd.shapes.length)
    simp only [countSlideParts] at hrec
    simp only [slideEntries, countSlideParts, List.countP_cons, hrec, List.length_cons]
    norm_num

/-- The slide entries contribute no presentation part. -/
lemma countPres_slideEntries (k f : Nat) (sls : List Slide) :
    countPresParts (slideEntries k f sls) = 0 := by
  induction sls generalizing k f with
  | nil => rfl
  | cons hd tl ih =>
    have hrec := ih (k + 1) (f + hd.shapes.length)
    simp only [countPresParts] at hrec
    simp only [slideEntries, countPresParts, List.countP_cons, hrec]
    norm_num

/-- The slide entries contribute no content-types part. -/
lemma countCtypes_slideEntries (k f : Nat) (sls : List Slide) :
    countCtypesParts (slideEntries k f sls) = 0 := by
  induction sls generalizing k f with
  | nil => rfl
  | cons hd tl ih =>
    have hrec := ih (k + 1) (f + hd.shapes.length)
    simp only [countCtypesParts] at hrec
    simp only [slideEntries, countCtypesParts, List.countP_cons, hrec]
    norm_num

/-- The slide entries declare no content-types bodies. -/
lemma ctypesNone_slideEntries (k f : Nat) (sls : List Slide) :
    (slideEntries k f sls).filterMap (fun e =>
      match e.2 with
      | PartBody.ctypes ds => some ds
      | _ => Option.none) = ([] : List (List String)) := by
  induction sls generalizing k f with
  | nil => rfl
  | cons hd tl ih =>
    have hrec := ih (k + 1) (f + hd.shapes.length)
    simp only [slideEntries, List.filterMap_cons, hrec]

/-- The archive's content-types part declares exactly the paths of
the other entries. -/
lemma declaredPaths_buildArchive (p : Presentation) :
    declaredPaths (buildArchive p) = (archiveRest p).map Prod.fst := by
  have hs := ctypesNone_slideEntries 1 2 p.slides
  simp only [declaredPaths, buildArchive, archiveRest, List.filterMap_cons, hs]
  simp

/-- Every slide part's path appears among the slide entries. -/
lemma slidePath_mem_slideEntries (k f j : Nat) (sls : List Slide)
    (hj : j < sls.length) :
    slidePartPath (k + j) ∈ (slideEntries k f sls).map Prod.fst := by
  induction sls generalizing k f j with
  | nil => simp at hj
  | cons hd tl ih =>
    cases j with
    | zero => simp [slideEntries]
    | succ j2 =>
      have hj2 : j2 < tl.length := by
        simp only [List.length_cons] at hj
        omega
      have harith : k + (j2 + 1) = (k + 1) + j2 := by omega
      rw [harith]
      have hmem := ih (k + 1) (f + hd.shapes.length) j2 hj2
      simp only [slideEntries, List.map_cons]
      exact List.mem_cons_of_mem _ (List.mem_cons_of_mem _ hmem)

/-- Every relationship target among the slide entries is the shared
layout part. -/
lemma relTargets_slideEntries (k f : Nat) (sls : List Slide) :
    ∀ t ∈ relTargets (slideEntries k f sls), t = layoutPath := by
  induction sls generalizing k f with
  | nil =>
    intro t ht
    simp [relTargets, slideEntries] at ht
  | cons hd tl ih =>
    intro t ht
    simp only [slideEntries, relTargets, List.filterMap_cons, List.flatten_cons,
      List.map_cons, List.map_nil, List.mem_append, List.mem_cons,
      List.not_mem_nil, or_false] at ht
    rcases ht with h | h
    · exact h
    · exact ih (k + 1) (f + hd.shapes.length) t (by simpa [relTargets] using h)

/-- C4: for every document model with S slides the archive has exactly
S slide parts, one presentation part and one content-types part; the
content-types part references every other part, and every relationship
target resolves to a part present in the archive. -/
theorem spec_c4 (p : Presentation) :
    countSlideParts (buildArchive p) = p.slides.length ∧
    countPresParts (buildArchive p) = 1 ∧
    countCtypesParts (buildArchive p) = 1 ∧
    (∀ path ∈ (buildArchive p).map Prod.fst, path ≠ contentTypesPath →
      path ∈ declaredPaths (buildArchive p)) ∧
    (∀ t ∈ relTargets (buildArchive p), t ∈ (buildArchive p).map Prod.fst) := by
  refine ⟨?_, ?_, ?_, ?_, ?_⟩
  · have hs := countSlide_slideEntries 1 2 p.slides
    simp only [countSlideParts] at hs
    simp only [buildArchive, archiveRest, countSlideParts, List.countP_cons, hs]
    norm_num
  · have hs := countPres_slideEntries 1 2 p.slides
    simp only [countPresParts] at hs
    simp only [buildArchive, archiveRest, countPresParts, List.countP_cons, hs]
    norm_num
  · have hs := countCtypes_slideEntries 1 2 p.slides
    simp only [countCtypesParts] at hs
    simp only [buildArchive, archiveRest, countCtypesParts, List.countP_cons, hs]
    norm_num
  · intro path hp hne
    rw [declaredPaths_buildArchive]
    simp only [buildArchive, List.map_cons, List.mem_cons] at hp
    rcases hp with h | h
    · exact absurd h hne
    · exact h
  · intro t ht
    simp only [buildArchive, archiveRest, relTargets, List.filterMap_cons,
      List.flatten_cons, List.map_cons, List.map_nil, List.mem_append,
      List.mem_cons, List.not_mem_nil, or_false, presRelEntries,
      List.map_append, List.map_map] at ht
    rcases ht with (h | h) | (h | h) | (h | h) | h | h
    · subst h
      simp [buildArchive, archiveRest]
    · subst h
      simp [buildArchive, archiveRest]
    · obtain ⟨i, hi, hti⟩ := List.mem_map.1 h
      have hiS : i < p.slides.length := List.mem_range.1 hi
      have hmem := slidePath_mem_slideEntries 1 2 i p.slides hiS
      rw [Nat.add_comm 1 i] at hmem
      simp only [Function.comp_apply] at hti
      subst hti
      simp only [buildArchive, archiveRest, List.map_cons, List.mem_cons]
      iterate 10 right
      exact hmem
    · subst h
      simp [buildArchive, archiveRest]
    · subst h
      simp [buildArchive, archiveRest]
    · subst h
      simp [buildArchive, archiveRest]
    · subst h
      simp [buildArchive, archiveRest]
    · have ht2 : t = layoutPath :=
        relTargets_slideEntries 1 2 p.slides t (by simpa [relTargets] using h)
      subst ht2
      simp [buildArchive, archiveRest]

/-- The ids assigned from `n` onward are `n, n+1, ...` in order. -/
lemma assignIdsFrom_map_snd (n : Nat) (xs : List Shape) :
    (assignIdsFrom n xs).map Prod.snd = List.range' n xs.length := by
  induction xs generalizing n with
  | nil => rfl
  | cons x rest ih =>
    simp [assignIdsFrom, List.range'_succ, ih (n + 1)]

/-- Positional view of the id assignment: position `k` holds the
`k`-th shape paired with id `n + k`. -/
lemma assignIdsFrom_getElem? (n k : Nat) (xs : List Shape) :
    (assignIdsFrom n xs)[k]? = (xs[k]?).map (fun x => (x, n + k)) := by
  induction xs generalizing n k with
  | nil => simp [assignIdsFrom]
  | cons x rest ih =>
    cases k with
    | zero => simp [assignIdsFrom]
    | succ k2 =>
      have harith : n + 1 + k2 = n + (k2 + 1) := by omega
      simp only [assignIdsFrom, List.getElem?_cons_succ, ih (n + 1) k2, harith]

/-- Swapping preserves length. -/
lemma length_swapList {α : Type _} (xs : List α) (i j : Nat) :
    (swapList xs i j).length = xs.length := by
  unfold swapList
  rcases hx : xs[i]? with _ | a
  · simp [hx]
  · rcases hy : xs[j]? with _ | b
    · simp [hx, hy]
    · simp [hx, hy, List.length_set]

/-- Positions other than the two swapped ones are unchanged. -/
lemma swapList_getElem?_ne {α : Type _} (xs : List α) (i j k : Nat)
    (hki : k ≠ i) (hkj : k ≠ j) :
    (swapList xs i j)[k]? = xs[k]? := by
  unfold swapList
  rcases hx : xs[i]? with _ | a
  · simp [hx]
  · rcases hy : xs[j]? with _ | b
    · simp [hx, hy]
    · simp only [hx, hy]
      rw [List.getElem?_set_ne (Ne.symm hkj), List.getElem?_set_ne (Ne.symm hki)]

/-- After the swap, position `i` holds the element that was at `j`. -/
lemma swapList_getElem?_left {α : Type _} (xs : List α) (i j : Nat)
    (hi : i < xs.length) (hj : j < xs.length) (hij : i ≠ j) :
    (swapList xs i j)[i]? = xs[j]? := by
  have hx := List.getElem?_eq_getElem hi
  have hy := List.getElem?_eq_getElem hj
  unfold swapList
  rw [hx, hy]
  simp only
  rw [List.getElem?_set_ne (Ne.symm hij),
    List.getElem?_set_self (by simpa using hi)]

/-- After the swap, position `j` holds the element that was at `i`. -/
lemma swapList_getElem?_right {α : Type _} (xs : List α) (i j : Nat)
    (hi : i < xs.length) (hj : j < xs.length) :
    (swapList xs i j)[j]? = xs[i]? := by
  have hx := List.getElem?_eq_getElem hi
  have hy := List.getElem?_eq_getElem hj
  unfold swapList
  rw [hx, hy]
  simp only
  rw [List.getElem?_set_self (by simpa using hj)]

/-- Swapping within the left part of an append acts on that part. -/
lemma swapList_append_left {α : Type _} (xs ys : List α) (i j : Nat)
    (hi : i < xs.length) (hj : j < xs.length) :
    swapList (xs ++ ys) i j = swapList xs i j ++ ys := by
  have hx := List.getElem?_eq_getElem hi
  have hy := List.getElem?_eq_getElem hj
  unfold swapList
  rw [List.getElem?_append_left hi, List.getElem?_append_left hj, hx, hy]
  simp only
  rw [List.set_append_left _ _ hi,
    List.set_append_left _ _ (by simpa using hj)]

/-- Swapping at offsets past the left part acts on the right part. -/
lemma swapList_append_right {α : Type _} (xs ys : List α) (a b : Nat) :
    swapList (xs ++ ys) (xs.length + a) (xs.length + b) =
      xs ++ swapList ys a b := by
  have h1 : (xs ++ ys)[xs.length + a]? = ys[a]? := by
    rw [List.getElem?_append_right (Nat.le_add_right _ _)]
    simp
  have h2 : (xs ++ ys)[xs.length + b]? = ys[b]? := by
    rw [List.getElem?_append_right (Nat.le_add_right _ _)]
    simp
  unfold swapList
  rw [h1, h2]
  rcases hx : ys[a]? with _ | va
  · simp
  · rcases hy : ys[b]? with _ | vb
    · simp
    · simp only
      rw [List.set_append_right _ _ (Nat.le_add_right _ _),
        List.set_append_right _ _ (Nat.le_add_right _ _)]
      simp

/-- Swapping two shapes inside one slide swaps exactly the
corresponding positions of the document-wide shape sequence. -/
lemma flatMap_set_swap (sls : List Slide) (s i j : Nat) (sl : Slide)
    (hsl : sls[s]? = some sl)
    (hi : i < sl.shapes.length) (hj : j < sl.shapes.length) :
    (sls.set s ⟨swapList sl.shapes i j⟩).flatMap Slide.shapes =
      swapList (sls.flatMap Slide.shapes)
        (listShapesBefore sls s + i) (listShapesBefore sls s + j) := by
  induction sls generalizing s with
  | nil => simp at hsl
  | cons hd tl ih =>
    cases s with
    | zero =>
      rw [List.getElem?_cons_zero] at hsl
      obtain rfl : hd = sl := by injection hsl
      simp only [List.set_cons_zero, List.flatMap_cons, listShapesBefore,
        List.take_zero, List.map_nil, List.sum_nil, Nat.zero_add]
      exact (swapList_append_left _ (tl.flatMap Slide.shapes) i j hi hj).symm
    | succ s2 =>
      rw [List.getElem?_cons_succ] at hsl
      have hrec := ih s2 hsl
      simp only [List.set_cons_succ, List.flatMap_cons, hrec, listShapesBefore,
        List.take_succ_cons, List.map_cons, List.sum_cons]
      rw [Nat.add_assoc, Nat.add_assoc]
      exact (swapList_append_right hd.shapes (tl.flatMap Slide.shapes) _ _).symm

/-- The document-wide position of a shape inside a slide is within
the flattened sequence. -/
lemma offset_add_lt (sls : List Slide) (s : Nat) (sl : Slide)
    (hsl : sls[s]? = some sl) (i : Nat) (hi : i < sl.shapes.length) :
    listShapesBefore sls s + i < (sls.flatMap Slide.shapes).length := by
  induction sls generalizing s with
  | nil => simp at hsl
  | cons hd tl ih =>
    cases s with
    | zero =>
      rw [List.getElem?_cons_zero] at hsl
      obtain rfl : hd = sl := by injection hsl
      simp only [listShapesBefore, List.take_zero, List.map_nil, List.sum_nil,
        Nat.zero_add, List.flatMap_cons, List.length_append]
      omega
    | succ s2 =>
      rw [List.getElem?_cons_succ] at hsl
      have hrec := ih s2 hsl
      simp only [listShapesBefore, List.take_succ_cons, List.map_cons,
        List.sum_cons, List.flatMap_cons, List.length_append] at hrec ⊢
      omega

/-- C5: shape ids are assigned 2..N+1 in slide order then shape order
(id 1 being each slide group root's reserved id), the assignment is a
pure function of the input, and reordering two shapes within a slide
exchanges exactly their two ids: the pairs at the two swapped
positions exchange shapes while every other (shape, id) pair is
unchanged. -/
theorem spec_c5 (p : Presentation) (s i j : Nat) (sl : Slide)
    (hsl : p.slides[s]? = some sl)
    (hi : i < sl.shapes.length) (hj : j < sl.shapes.length) (hij : i ≠ j) :
    (shapeIdPairs p).map Prod.snd = List.range' 2 (allShapes p).length ∧
    (shapeIdPairs (swapShapesWithin p s i j)).map Prod.snd =
      List.range' 2 (allShapes p).length ∧
    (shapeIdPairs p)[shapesBefore p s + i]? =
      ((allShapes p)[shapesBefore p s + i]?).map
        (fun sh => (sh, 2 + (shapesBefore p s + i))) ∧
    (shapeIdPairs p)[shapesBefore p s + j]? =
      ((allShapes p)[shapesBefore p s + j]?).map
        (fun sh => (sh, 2 + (shapesBefore p s + j))) ∧
    (shapeIdPairs (swapShapesWithin p s i j))[shapesBefore p s + i]? =
      ((allShapes p)[shapesBefore p s + j]?).map
        (fun sh => (sh, 2 + (shapesBefore p s + i))) ∧
    (shapeIdPairs (swapShapesWithin p s i j))[shapesBefore p s + j]? =
      ((allShapes p)[shapesBefore p s + i]?).map
        (fun sh => (sh, 2 + (shapesBefore p s + j))) ∧
    (∀ k, k ≠ shapesBefore p s + i → k ≠ shapesBefore p s + j →
      (shapeIdPairs (swapShapesWithin p s i j))[k]? = (shapeIdPairs p)[k]?) := by
  have ha : shapesBefore p s + i < (allShapes p).length :=
    offset_add_lt p.slides s sl hsl i hi
  have hb : shapesBefore p s + j < (allShapes p).length :=
    offset_add_lt p.slides s sl hsl j hj
  have hab : shapesBefore p s + i ≠ shapesBefore p s + j := by omega
  have hslides : (swapShapesWithin p s i j).slides =
      p.slides.set s ⟨swapList sl.shapes i j⟩ := by
    unfold swapShapesWithin
    rw [hsl]
  have hflat : allShapes (swapShapesWithin p s i j) =
      swapList (allShapes p) (shapesBefore p s + i) (shapesBefore p s + j) := by
    unfold allShapes
    rw [hslides]
    exact flatMap_set_swap p.slides s i j sl hsl hi hj
  refine ⟨?_, ?_, ?_, ?_, ?_, ?_, ?_⟩
  · simp only [shapeIdPairs]
    rw [assignIdsFrom_map_snd]
  · simp only [shapeIdPairs]
    rw [assignIdsFrom_map_snd, hflat, length_swapList]
  · simp only [shapeIdPairs]
    rw [assignIdsFrom_getElem?]
  · simp only [shapeIdPairs]
    rw [assignIdsFrom_getElem?]
  · simp only [shapeIdPairs]
    rw [assignIdsFrom_getElem?, hflat,
      swapList_getElem?_left (allShapes p) _ _ ha hb hab]
  · simp only [shapeIdPairs]
    rw [assignIdsFrom_getElem?, hflat,
      swapList_getElem?_right (allShapes p) _ _ ha hb]
  · intro k hka hkb
    simp only [shapeIdPairs]
    rw [assignIdsFrom_getElem?, assignIdsFrom_getElem?, hflat,
      swapList_getElem?_ne (allShapes p) _ _ _ hka hkb]

/-- Witness for C5: in the fixture model (6 shapes, ids 2..7),
swapping the rectangle and the oval on slide 2 exchanges exactly
their two ids (5 and 6) and leaves every other pair unchanged. -/
theorem spec_c5_witness :
    refModel.slides[1]? = some refSlide2 ∧
    1 < refSlide2.shapes.length ∧
    2 < refSlide2.shapes.length ∧
    (1 : Nat) ≠ 2 ∧
    (shapeIdPairs refModel).map Prod.snd = List.range' 2 6 ∧
    (shapeIdPairs (swapShapesWithin refModel 1 1 2))[3]? = some (refCircle, 5) ∧
    (shapeIdPairs (swapShapesWithin refModel 1 1 2))[4]? = some (refRect, 6) ∧
    (shapeIdPairs (swapShapesWithin refModel 1 1 2))[0]? =
      (shapeIdPairs refModel)[0]? := by
  have H := spec_c5 refModel 1 1 2 refSlide2 rfl (by decide) (by decide) (by decide)
  exact ⟨rfl, by decide, by decide, by decide, H.1,
         H.2.2.2.2.1, H.2.2.2.2.2.1, H.2.2.2.2.2.2 0 (by decide) (by decide)⟩

end Pptx